import Mathlib

/-!
Verification of the record/user management core of the `iznotek/dns` repository.

The Go handlers in `src/records/update.go`, `src/users/read.go`, the users
`update` handler and the roles `update` handler are embedded shallowly below.
Helper packages (`util.ValidateBody`, `db.EvaluateRole`, the `db.Get`/`db.Set`
codec and the user bucket helpers) are not part of the reviewed sources, so
they are modelled from the specification; each such definition carries a doc
comment starting with `Modelled from the spec:`.
-/

namespace Dns

/-- A decoded JSON value, the result of `json.NewDecoder(r.Body).Decode(&body)`
into a Go `map[string]interface{}`.  JSON numbers are modelled as integers:
every numeric field of the schemas is an unsigned integer field. -/
inductive JValue where
  | str : String → JValue
  | num : Int → JValue
  | arr : List JValue → JValue
  | bool : Bool → JValue
  | null : JValue

/-- An HTTP response written through `util.Responses`: either
`util.Responses.Error(w, status, msg)` or `util.Responses.Success(w)`. -/
inductive Response where
  | success : Response
  | error : Nat → String → Response
deriving DecidableEq, Repr

/-- The decoded request body: a field-name-indexed partial map of JSON values. -/
def Body : Type := String → Option JValue

/-- One schema entry handed to the field validator: the Go literal
`{"type": ..., "required": ..., "min": ..., "max": ..., "oneOf": ...}`. -/
structure FieldSpec where
  ftype : String
  required : Bool
  minB : Option Int
  maxB : Option Int
  oneOf : Option (List String)
deriving DecidableEq, Repr

/-- ASCII lower-casing of one character, the per-character action of Go
`strings.ToLower` on the ASCII domain names in scope. -/
def lowerChar (c : Char) : Char :=
  if 65 ≤ c.toNat ∧ c.toNat ≤ 90 then Char.ofNat (c.toNat + 32) else c

/-- ASCII upper-casing of one character, the per-character action of Go
`strings.ToUpper` on the ASCII type tags in scope. -/
def upperChar (c : Char) : Char :=
  if 97 ≤ c.toNat ∧ c.toNat ≤ 122 then Char.ofNat (c.toNat - 32) else c

/-- Go `strings.ToLower` (ASCII case folding). -/
def toLowerStr (s : String) : String := ⟨s.data.map lowerChar⟩

/-- Go `strings.ToUpper` (ASCII case folding). -/
def toUpperStr (s : String) : String := ⟨s.data.map upperChar⟩

/-- The Go type assertion `body[f].(string)`; all uses in the handlers are
guarded by a validity-map entry, which guarantees the field is a string. -/
def getStr (body : Body) (f : String) : String :=
  match body f with
  | some (JValue.str s) => s
  | _ => ""

/-- The Go cast chain `uintN(body[f].(float64))`; all uses are guarded by a
validity-map entry, which guarantees an in-range unsigned integer. -/
def getNat (body : Body) (f : String) : Nat :=
  match body f with
  | some (JValue.num n) => n.toNat
  | _ => 0

/-- Splits a character list on dots; always returns at least one group. -/
def splitDots : List Char → List (List Char)
  | [] => [[]]
  | c :: cs =>
    match splitDots cs with
    | [] => []
    | g :: gs => if c = '.' then [] :: g :: gs else (c :: g) :: gs

/-- Decimal value of a digit list. -/
def digitsToNat (l : List Char) : Nat :=
  l.foldl (fun acc c => acc * 10 + (c.toNat - 48)) 0

/-- One dotted-quad component: one to three digits with value at most 255. -/
def isOctet (l : List Char) : Bool :=
  decide (0 < l.length) && decide (l.length ≤ 3) && l.all Char.isDigit &&
    decide (digitsToNat l ≤ 255)

/-- Modelled from the spec: the Field Validator checks `host` against the
semantic type "IPv4 literal" (§4.3); dotted-quad form. -/
def isIPv4 (s : String) : Bool :=
  let ps := splitDots s.data
  decide (ps.length = 4) && ps.all isOctet

/-- Modelled from the spec: the Field Validator checks `host` against the
semantic type "IPv6 literal" (§4.3); colon-separated hexadecimal groups. -/
def isIPv6 (s : String) : Bool :=
  s.data.any (fun c => c = ':') &&
    s.data.all (fun c => c.isDigit || c = ':' || c = '.' ||
      (97 ≤ c.toNat && c.toNat ≤ 102) || (65 ≤ c.toNat && c.toNat ≤ 70))

/-- Modelled from the spec: semantic-type check of `util.ValidateBody` (§4.3):
string, unsigned-int-N fitting N bits, IPv4/IPv6 literal, list-of-strings. -/
def typeOk (t : String) (v : JValue) : Bool :=
  if t = "string" then (match v with | JValue.str _ => true | _ => false)
  else if t = "uint8" then
    (match v with | JValue.num n => decide (0 ≤ n) && decide (n < 256) | _ => false)
  else if t = "uint16" then
    (match v with | JValue.num n => decide (0 ≤ n) && decide (n < 65536) | _ => false)
  else if t = "uint32" then
    (match v with | JValue.num n => decide (0 ≤ n) && decide (n < 4294967296) | _ => false)
  else if t = "ipv4" then (match v with | JValue.str s => isIPv4 s | _ => false)
  else if t = "ipv6" then (match v with | JValue.str s => isIPv6 s | _ => false)
  else if t = "stringarray" then
    (match v with
     | JValue.arr xs => xs.all (fun x => match x with | JValue.str _ => true | _ => false)
     | _ => false)
  else false

/-- Modelled from the spec: declared min/max bounds of `util.ValidateBody`
(§4.3): out-of-range is a validation error, never clamped. -/
def boundsOk (sp : FieldSpec) (v : JValue) : Bool :=
  match v with
  | JValue.num n =>
      (match sp.minB with | some lo => decide (lo ≤ n) | none => true) &&
      (match sp.maxB with | some hi => decide (n ≤ hi) | none => true)
  | _ => true

/-- Modelled from the spec: enumerated one-of check of `util.ValidateBody`
(§4.3), for example LOC `lat-direction ∈ N,S`. -/
def oneOfOk (sp : FieldSpec) (v : JValue) : Bool :=
  match sp.oneOf, v with
  | some xs, JValue.str s => xs.contains s
  | some _, _ => true
  | none, _ => true

/-- Modelled from the spec: full per-field check of `util.ValidateBody`. -/
def checkValue (sp : FieldSpec) (v : JValue) : Bool :=
  typeOk sp.ftype v && boundsOk sp v && oneOfOk sp v

/-- Modelled from the spec: the error for a missing required field. -/
def reqMsg (f : String) : String := "field \x27" ++ f ++ "\x27 is required"

/-- Modelled from the spec: the error naming the field and the expected type. -/
def typeMsg (f : String) (sp : FieldSpec) : String :=
  "field \x27" ++ f ++ "\x27 must be of type " ++ sp.ftype

/-- Modelled from the spec: the fail-fast scan of `util.ValidateBody` over the
declared fields, returning the first violation (§4.3). -/
def firstError (fields : List String) (schema : List (String × FieldSpec))
    (body : Body) : Option String :=
  match fields with
  | [] => none
  | f :: rest =>
    match schema.lookup f with
    | none => firstError rest schema body
    | some sp =>
      match body f with
      | none => if sp.required then some (reqMsg f) else firstError rest schema body
      | some v => if checkValue sp v then firstError rest schema body else some (typeMsg f sp)

/-- Modelled from the spec: `util.ValidateBody(body, fields, schema)` is not in
src; §4.3: it returns a descriptive error on the first type/range/requiredness
violation (fail-fast, no partial validity map) and otherwise the validity map
sending a field to true exactly when it was present in the input and valid;
unknown fields outside the schema are ignored. -/
def ValidateBody (body : Body) (fields : List String)
    (schema : List (String × FieldSpec)) : String × (String → Bool) :=
  match firstError fields schema body with
  | some e => (e, fun _ => false)
  | none => ("", fun f => fields.contains f && (body f).isSome)

/-- A role record: `{ name, description, allow, deny }` (§6). -/
structure Role where
  Name : String
  Description : String
  Allow : String
  Deny : String
deriving DecidableEq, Repr

/-- Glob matching worker; the fuel argument makes the recursion structural and
never runs out when it starts at the combined length of pattern and name. -/
def globAux : Nat → List Char → List Char → Bool
  | _, [], [] => true
  | _, [], _ :: _ => false
  | 0, _ :: _, _ => false
  | fuel + 1, c :: ps, [] => c == '*' && globAux fuel ps []
  | fuel + 1, c :: ps, d :: ds =>
    if c == '*' then globAux fuel ps (d :: ds) || globAux fuel (c :: ps) ds
    else c == d && globAux fuel ps ds

/-- Glob matching of a pattern with `*` wildcards against a name. -/
def globMatch (p s : List Char) : Bool := globAux (p.length + s.length) p s

/-- Modelled from the spec: the pattern language of the Policy Evaluator is an
open question (§9); the §8 examples use `*` globbing, which is adopted here.
An empty pattern matches nothing, so that an empty allow pattern denies every
name (§4.2). -/
def matchPattern (pat name : String) : Bool :=
  decide (pat ≠ "") && globMatch pat.data name.data

/-- Modelled from the spec: `db.EvaluateRole` is not in src; §4.2: match the
deny pattern first and return false unconditionally on a match, otherwise
return true only if the allow pattern matches (fail-closed default deny). -/
def evaluateRole (role : Role) (name : String) : Bool :=
  if matchPattern role.Deny name then false
  else matchPattern role.Allow name

/-- An A record; `Address` is the textual form of the `net.IP`. -/
structure ARecord where
  Address : String
deriving DecidableEq, Repr

/-- An AAAA record; `Address` is the textual form of the `net.IP`. -/
structure AAAARecord where
  Address : String
deriving DecidableEq, Repr

/-- A CNAME record. -/
structure CNAMERecord where
  Target : String
deriving DecidableEq, Repr

/-- An MX record. -/
structure MXRecord where
  Host : String
  Priority : Nat
deriving DecidableEq, Repr

/-- A LOC record. -/
structure LOCRecord where
  Version : Nat
  Size : Nat
  HorizontalPrecision : Nat
  VerticalPrecision : Nat
  Altitude : Nat
  LatDegrees : Nat
  LatMinutes : Nat
  LatSeconds : Nat
  LatDirection : String
  LongDegrees : Nat
  LongMinutes : Nat
  LongSeconds : Nat
  LongDirection : String
deriving DecidableEq, Repr

/-- An SRV record. -/
structure SRVRecord where
  Priority : Nat
  Weight : Nat
  Port : Nat
  Target : String
deriving DecidableEq, Repr

/-- An SPF record; `Text` is the joined string list. -/
structure SPFRecord where
  Text : String
deriving DecidableEq, Repr

/-- A TXT record; `Text` is the joined string list. -/
structure TXTRecord where
  Text : String
deriving DecidableEq, Repr

/-- An NS record. -/
structure NSRecord where
  Nameserver : String
deriving DecidableEq, Repr

/-- A CAA record. -/
structure CAARecord where
  Tag : String
  Content : String
deriving DecidableEq, Repr

/-- A PTR record. -/
structure PTRRecord where
  Domain : String
deriving DecidableEq, Repr

/-- A CERT record; `CType` embeds the Go field `Type`. -/
structure CERTRecord where
  CType : Nat
  KeyTag : Nat
  Algorithm : Nat
  Certificate : String
deriving DecidableEq, Repr

/-- A DNSKEY record. -/
structure DNSKEYRecord where
  Flags : Nat
  Protocol : Nat
  Algorithm : Nat
  PublicKey : String
deriving DecidableEq, Repr

/-- A DS record. -/
structure DSRecord where
  KeyTag : Nat
  Algorithm : Nat
  DigestType : Nat
  Digest : String
deriving DecidableEq, Repr

/-- A NAPTR record. -/
structure NAPTRRecord where
  Order : Nat
  Preference : Nat
  Flags : String
  Service : String
  Regexp : String
  Replacement : String
deriving DecidableEq, Repr

/-- An SMIMEA record. -/
structure SMIMEARecord where
  Usage : Nat
  Selector : Nat
  MatchingType : Nat
  Certificate : String
deriving DecidableEq, Repr

/-- An SSHFP record; `SType` embeds the Go field `Type`. -/
structure SSHFPRecord where
  Algorithm : Nat
  SType : Nat
  Fingerprint : String
deriving DecidableEq, Repr

/-- A TLSA record. -/
structure TLSARecord where
  Usage : Nat
  Selector : Nat
  MatchingType : Nat
  Certificate : String
deriving DecidableEq, Repr

/-- A URI record. -/
structure URIRecord where
  Priority : Nat
  Weight : Nat
  Target : String
deriving DecidableEq, Repr

/-- Modelled from the spec: the key-value store behind `db.Get`/`db.Set` and
the roles bucket behind `db.GetRole`; one serialized value per (record name,
RR type) pair, keyed by the normalized record name (§6).  Each RR type is one
partial map from the fully qualified name (with trailing dot) to the record. -/
structure Database where
  roles : String → Option Role
  a : String → Option ARecord
  aaaa : String → Option AAAARecord
  cname : String → Option CNAMERecord
  mx : String → Option MXRecord
  loc : String → Option LOCRecord
  srv : String → Option SRVRecord
  spf : String → Option SPFRecord
  txt : String → Option TXTRecord
  ns : String → Option NSRecord
  caa : String → Option CAARecord
  ptr : String → Option PTRRecord
  cert : String → Option CERTRecord
  dnskey : String → Option DNSKEYRecord
  ds : String → Option DSRecord
  naptr : String → Option NAPTRRecord
  smimea : String → Option SMIMEARecord
  sshfp : String → Option SSHFPRecord
  tlsa : String → Option TLSARecord
  uri : String → Option URIRecord

/-- Modelled from the spec: `db.EvaluateRole(roleName, name, database)` fetches
the role definition at authorization time and evaluates it; a missing role
surfaces as the error return (§3 lifecycle, §4.2). -/
def EvaluateRole (roleName name : String) (db : Database) : Option Bool :=
  match db.roles roleName with
  | none => none
  | some r => some (evaluateRole r name)

/-- Modelled from the spec: `util.ConvertArrayToString` is not in src; §4
TXT/SPF: the `text` list of strings is joined into one stored string field. -/
def convertArrayToString (xs : List JValue) : String :=
  String.join (xs.map (fun x => match x with | JValue.str s => s | _ => ""))

/-- The guarded field assignments of the A branch (update.go lines 90-92). -/
def mergeA (r : ARecord) (v : String → Bool) (b : Body) : ARecord :=
  { Address := if v "host" then getStr b "host" else r.Address }

/-- The guarded field assignments of the AAAA branch (lines 116-118). -/
def mergeAAAA (r : AAAARecord) (v : String → Bool) (b : Body) : AAAARecord :=
  { Address := if v "host" then getStr b "host" else r.Address }

/-- The guarded field assignments of the CNAME branch (lines 142-144). -/
def mergeCNAME (r : CNAMERecord) (v : String → Bool) (b : Body) : CNAMERecord :=
  { Target := if v "target" then getStr b "target" else r.Target }

/-- The guarded field assignments of the MX branch (lines 168-173). -/
def mergeMX (r : MXRecord) (v : String → Bool) (b : Body) : MXRecord :=
  { Host := if v "host" then getStr b "host" else r.Host,
    Priority := if v "priority" then getNat b "priority" else r.Priority }

/-- The guarded field assignments of the LOC branch (lines 211-249). -/
def mergeLOC (r : LOCRecord) (v : String → Bool) (b : Body) : LOCRecord :=
  { Version := if v "version" then getNat b "version" else r.Version,
    Size := if v "size" then getNat b "size" else r.Size,
    HorizontalPrecision :=
      if v "horizontal-precision" then getNat b "horizontal-precision" else r.HorizontalPrecision,
    VerticalPrecision :=
      if v "vertical-precision" then getNat b "vertical-precision" else r.VerticalPrecision,
    Altitude := if v "altitude" then getNat b "altitude" else r.Altitude,
    LatDegrees := if v "lat-degrees" then getNat b "lat-degrees" else r.LatDegrees,
    LatMinutes := if v "lat-minutes" then getNat b "lat-minutes" else r.LatMinutes,
    LatSeconds := if v "lat-seconds" then getNat b "lat-seconds" else r.LatSeconds,
    LatDirection := if v "lat-direction" then getStr b "lat-direction" else r.LatDirection,
    LongDegrees := if v "long-degrees" then getNat b "long-degrees" else r.LongDegrees,
    LongMinutes := if v "long-minutes" then getNat b "long-minutes" else r.LongMinutes,
    LongSeconds := if v "long-seconds" then getNat b "long-seconds" else r.LongSeconds,
    LongDirection := if v "long-direction" then getStr b "long-direction" else r.LongDirection }

/-- The guarded field assignments of the SRV branch (lines 278-289). -/
def mergeSRV (r : SRVRecord) (v : String → Bool) (b : Body) : SRVRecord :=
  { Priority := if v "priority" then getNat b "priority" else r.Priority,
    Weight := if v "weight" then getNat b "weight" else r.Weight,
    Port := if v "port" then getNat b "port" else r.Port,
    Target := if v "target" then getStr b "target" else r.Target }

/-- The guarded field assignments of the SPF branch (lines 313-316). -/
def mergeSPF (r : SPFRecord) (v : String → Bool) (b : Body) : SPFRecord :=
  { Text := if v "text" then
      convertArrayToString (match b "text" with | some (JValue.arr xs) => xs | _ => [])
    else r.Text }

/-- The guarded field assignments of the TXT branch (lines 340-343). -/
def mergeTXT (r : TXTRecord) (v : String → Bool) (b : Body) : TXTRecord :=
  { Text := if v "text" then
      convertArrayToString (match b "text" with | some (JValue.arr xs) => xs | _ => [])
    else r.Text }

/-- The guarded field assignments of the NS branch (lines 367-369). -/
def mergeNS (r : NSRecord) (v : String → Bool) (b : Body) : NSRecord :=
  { Nameserver := if v "nameserver" then getStr b "nameserver" else r.Nameserver }

/-- The guarded field assignments of the CAA branch (lines 392-397).  NOTE:
the source assigns the provided `content` value to the `Tag` field (line 396,
`record.Tag = body["content"].(string)`), after the `tag` assignment; the
`Content` field is never written, so it always carries over. -/
def mergeCAA (r : CAARecord) (v : String → Bool) (b : Body) : CAARecord :=
  { Tag := if v "content" then getStr b "content"
           else if v "tag" then getStr b "tag" else r.Tag,
    Content := r.Content }

/-- The guarded field assignments of the PTR branch (lines 420-422). -/
def mergePTR (r : PTRRecord) (v : String → Bool) (b : Body) : PTRRecord :=
  { Domain := if v "domain" then getStr b "domain" else r.Domain }

/-- The guarded field assignments of the CERT branch (lines 450-461). -/
def mergeCERT (r : CERTRecord) (v : String → Bool) (b : Body) : CERTRecord :=
  { CType := if v "c-type" then getNat b "c-type" else r.CType,
    KeyTag := if v "key-tag" then getNat b "key-tag" else r.KeyTag,
    Algorithm := if v "algorithm" then getNat b "algorithm" else r.Algorithm,
    Certificate := if v "certificate" then getStr b "certificate" else r.Certificate }

/-- The guarded field assignments of the DNSKEY branch (lines 489-500). -/
def mergeDNSKEY (r : DNSKEYRecord) (v : String → Bool) (b : Body) : DNSKEYRecord :=
  { Flags := if v "flags" then getNat b "flags" else r.Flags,
    Protocol := if v "protocol" then getNat b "protocol" else r.Protocol,
    Algorithm := if v "algorithm" then getNat b "algorithm" else r.Algorithm,
    PublicKey := if v "public-key" then getStr b "public-key" else r.PublicKey }

/-- The guarded field assignments of the DS branch (lines 528-539). -/
def mergeDS (r : DSRecord) (v : String → Bool) (b : Body) : DSRecord :=
  { KeyTag := if v "key-tag" then getNat b "key-tag" else r.KeyTag,
    Algorithm := if v "algorithm" then getNat b "algorithm" else r.Algorithm,
    DigestType := if v "digest-type" then getNat b "digest-type" else r.DigestType,
    Digest := if v "digest" then getStr b "digest" else r.Digest }

/-- The guarded field assignments of the NAPTR branch (lines 569-586). -/
def mergeNAPTR (r : NAPTRRecord) (v : String → Bool) (b : Body) : NAPTRRecord :=
  { Order := if v "order" then getNat b "order" else r.Order,
    Preference := if v "preference" then getNat b "preference" else r.Preference,
    Flags := if v "flags" then getStr b "flags" else r.Flags,
    Service := if v "service" then getStr b "service" else r.Service,
    Regexp := if v "regexp" then getStr b "regexp" else r.Regexp,
    Replacement := if v "replacement" then getStr b "replacement" else r.Replacement }

/-- The guarded field assignments of the SMIMEA branch (lines 614-625). -/
def mergeSMIMEA (r : SMIMEARecord) (v : String → Bool) (b : Body) : SMIMEARecord :=
  { Usage := if v "usage" then getNat b "usage" else r.Usage,
    Selector := if v "selector" then getNat b "selector" else r.Selector,
    MatchingType := if v "matching-type" then getNat b "matching-type" else r.MatchingType,
    Certificate := if v "certificate" then getStr b "certificate" else r.Certificate }

/-- The guarded field assignments of the SSHFP branch (lines 652-660). -/
def mergeSSHFP (r : SSHFPRecord) (v : String → Bool) (b : Body) : SSHFPRecord :=
  { Algorithm := if v "algorithm" then getNat b "algorithm" else r.Algorithm,
    SType := if v "s-type" then getNat b "s-type" else r.SType,
    Fingerprint := if v "fingerprint" then getStr b "fingerprint" else r.Fingerprint }

/-- The guarded field assignments of the TLSA branch (lines 688-699). -/
def mergeTLSA (r : TLSARecord) (v : String → Bool) (b : Body) : TLSARecord :=
  { Usage := if v "usage" then getNat b "usage" else r.Usage,
    Selector := if v "selector" then getNat b "selector" else r.Selector,
    MatchingType := if v "matching-type" then getNat b "matching-type" else r.MatchingType,
    Certificate := if v "certificate" then getStr b "certificate" else r.Certificate }

/-- The guarded field assignments of the URI branch (lines 726-734). -/
def mergeURI (r : URIRecord) (v : String → Bool) (b : Body) : URIRecord :=
  { Priority := if v "priority" then getNat b "priority" else r.Priority,
    Weight := if v "weight" then getNat b "weight" else r.Weight,
    Target := if v "target" then getStr b "target" else r.Target }

/-- Shorthand for a Go schema literal with only a type and a required flag. -/
def fs (t : String) (req : Bool) : FieldSpec := ⟨t, req, none, none, none⟩

/-- Field list of the A branch (line 83). -/
def aFields : List String := ["host"]

/-- Schema of the A branch (line 83). -/
def aSchema : List (String × FieldSpec) := [("host", fs "ipv4" false)]

/-- Field list of the AAAA branch (line 109). -/
def aaaaFields : List String := ["host"]

/-- Schema of the AAAA branch (line 109). -/
def aaaaSchema : List (String × FieldSpec) := [("host", fs "ipv6" false)]

/-- Field list of the CNAME branch (line 135). -/
def cnameFields : List String := ["target"]

/-- Schema of the CNAME branch (line 135). -/
def cnameSchema : List (String × FieldSpec) := [("target", fs "string" false)]

/-- Field list of the MX branch (line 161). -/
def mxFields : List String := ["host", "priority"]

/-- Schema of the MX branch (line 161). -/
def mxSchema : List (String × FieldSpec) :=
  [("host", fs "string" false), ("priority", fs "uint16" false)]

/-- Field list of the LOC branch (line 190). -/
def locFields : List String :=
  ["version", "size", "horizontal-precision", "vertical-precision", "altitude",
   "lat-degrees", "lat-minutes", "lat-seconds", "lat-direction",
   "long-degrees", "long-minutes", "long-seconds", "long-direction"]

/-- Schema of the LOC branch (lines 190-204): all fields required, with the
min/max bounds and direction letter sets of the source. -/
def locSchema : List (String × FieldSpec) :=
  [("version", fs "uint8" true),
   ("size", fs "uint8" true),
   ("horizontal-precision", fs "uint8" true),
   ("vertical-precision", fs "uint8" true),
   ("altitude", fs "uint32" true),
   ("lat-degrees", ⟨"uint8", true, some 0, some 90, none⟩),
   ("lat-minutes", ⟨"uint8", true, some 0, some 60, none⟩),
   ("lat-seconds", ⟨"uint8", true, some 0, some 60, none⟩),
   ("lat-direction", ⟨"string", true, none, none, some ["N", "S"]⟩),
   ("long-degrees", ⟨"uint8", true, some 0, some 180, none⟩),
   ("long-minutes", ⟨"uint8", true, some 0, some 60, none⟩),
   ("long-seconds", ⟨"uint8", true, some 0, some 60, none⟩),
   ("long-direction", ⟨"string", true, none, none, some ["E", "W"]⟩)]

/-- Field list of the SRV branch (line 266). -/
def srvFields : List String := ["priority", "weight", "port", "target"]

/-- Schema of the SRV branch (lines 266-271). -/
def srvSchema : List (String × FieldSpec) :=
  [("priority", fs "uint16" false), ("weight", fs "uint16" false),
   ("port", fs "uint16" false), ("target", fs "string" false)]

/-- Field list of the SPF branch (line 306). -/
def spfFields : List String := ["text"]

/-- Schema of the SPF branch (line 306). -/
def spfSchema : List (String × FieldSpec) := [("text", fs "stringarray" false)]

/-- Field list of the TXT branch (line 333). -/
def txtFields : List String := ["text"]

/-- Schema of the TXT branch (line 333). -/
def txtSchema : List (String × FieldSpec) := [("text", fs "stringarray" false)]

/-- Field list of the NS branch (line 360). -/
def nsFields : List String := ["nameserver"]

/-- Schema of the NS branch (line 360). -/
def nsSchema : List (String × FieldSpec) := [("nameserver", fs "string" false)]

/-- Field list of the CAA branch (line 386). -/
def caaFields : List String := ["tag", "content"]

/-- Schema of the CAA branch (line 386). -/
def caaSchema : List (String × FieldSpec) :=
  [("tag", fs "string" false), ("content", fs "string" false)]

/-- Field list of the PTR branch (line 414). -/
def ptrFields : List String := ["domain"]

/-- Schema of the PTR branch (line 414). -/
def ptrSchema : List (String × FieldSpec) := [("domain", fs "string" false)]

/-- Field list of the CERT branch (line 439). -/
def certFields : List String := ["c-type", "key-tag", "algorithm", "certificate"]

/-- Schema of the CERT branch (lines 439-444); the source spells `requried`
for `c-type`, so the lookup of `required` yields the empty string and the
field is treated as not required. -/
def certSchema : List (String × FieldSpec) :=
  [("c-type", fs "uint16" false), ("key-tag", fs "uint16" false),
   ("algorithm", fs "uint8" false), ("certificate", fs "string" false)]

/-- Field list of the DNSKEY branch (line 478). -/
def dnskeyFields : List String := ["flags", "protocol", "algorithm", "public-key"]

/-- Schema of the DNSKEY branch (lines 478-483). -/
def dnskeySchema : List (String × FieldSpec) :=
  [("flags", fs "uint16" false), ("protocol", fs "uint8" false),
   ("algorithm", fs "uint8" false), ("public-key", fs "string" false)]

/-- Field list of the DS branch (line 517). -/
def dsFields : List String := ["key-tag", "algorithm", "digest-type", "digest"]

/-- Schema of the DS branch (lines 517-522). -/
def dsSchema : List (String × FieldSpec) :=
  [("key-tag", fs "uint16" false), ("algorithm", fs "uint8" false),
   ("digest-type", fs "uint8" false), ("digest", fs "string" false)]

/-- Field list of the NAPTR branch (line 556). -/
def naptrFields : List String :=
  ["order", "preference", "flags", "service", "regexp", "replacement"]

/-- Schema of the NAPTR branch (lines 556-563). -/
def naptrSchema : List (String × FieldSpec) :=
  [("order", fs "uint16" false), ("preference", fs "uint16" false),
   ("flags", fs "string" false), ("service", fs "string" false),
   ("regexp", fs "string" false), ("replacement", fs "string" false)]

/-- Field list of the SMIMEA branch (line 603). -/
def smimeaFields : List String := ["usage", "selector", "matching-type", "certificate"]

/-- Schema of the SMIMEA branch (lines 603-608). -/
def smimeaSchema : List (String × FieldSpec) :=
  [("usage", fs "uint8" false), ("selector", fs "uint8" false),
   ("matching-type", fs "uint8" false), ("certificate", fs "string" false)]

/-- Field list of the SSHFP branch (line 642). -/
def sshfpFields : List String := ["algorithm", "s-type", "fingerprint"]

/-- Schema of the SSHFP branch (lines 642-646). -/
def sshfpSchema : List (String × FieldSpec) :=
  [("algorithm", fs "uint8" false), ("s-type", fs "uint8" false),
   ("fingerprint", fs "string" false)]

/-- Field list of the TLSA branch (line 677). -/
def tlsaFields : List String := ["usage", "selector", "matching-type", "certificate"]

/-- Schema of the TLSA branch (lines 677-682). -/
def tlsaSchema : List (String × FieldSpec) :=
  [("usage", fs "uint8" false), ("selector", fs "uint8" false),
   ("matching-type", fs "uint8" false), ("certificate", fs "string" false)]

/-- Field list of the URI branch (line 716). -/
def uriFields : List String := ["priority", "weight", "target"]

/-- Schema of the URI branch (lines 716-720); the source spells `requried`
for `target`, so the field is treated as not required. -/
def uriSchema : List (String × FieldSpec) :=
  [("priority", fs "uint16" false), ("weight", fs "uint16" false),
   ("target", fs "string" false)]

/-- The observable outcome of one RR-type branch of the `switch`.  Besides the
responses written to `w` and the per-type store map, the result records
whether the branch returned early, and how many `db.Set` and
`util.ValidateBody` calls it performed. -/
structure BranchResult (α : Type) where
  responses : List Response
  store : String → Option α
  returned : Bool
  setCalls : Nat
  valCalls : Nat

/-- One RR-type branch of the `switch` in `update` (update.go lines 74-740).
Every branch has the same shape: `db.Get` at `recordName + "."`, the
does-not-exist check, `util.ValidateBody`, the guarded merge, `db.Set`.  The
branches for A, AAAA, CNAME, MX, LOC, SRV, SPF, TXT and NS return after a
validation error (`returnOnErr = true`); the branches for CAA, PTR, CERT,
DNSKEY, DS, NAPTR, SMIMEA, SSHFP, TLSA and URI write the error response but
fall through to the merge and the `db.Set` call (`returnOnErr = false`).
`db.Get` on an absent record is the modelled "does not exist" sentinel
(`none`), and the modelled `db.Set` stores the merged record back under the
same fully qualified key, as the spec's round-trip contract requires (§4.4). -/
def runBranch {α : Type} (load : String → Option α) (key : String)
    (fields : List String) (schema : List (String × FieldSpec)) (body : Body)
    (mergeFn : α → (String → Bool) → Body → α) (returnOnErr : Bool) :
    BranchResult α :=
  match load key with
  | none => ⟨[Response.error 400 "specified record does not exist"], load, true, 0, 0⟩
  | some record =>
    let ev := ValidateBody body fields schema
    if ev.1 ≠ "" ∧ returnOnErr then
      ⟨[Response.error 400 ev.1], load, true, 0, 1⟩
    else
      let merged := mergeFn record ev.2 body
      ⟨(if ev.1 ≠ "" then [Response.error 400 ev.1] else []),
       fun k => if k = key then some merged else load k, false, 1, 1⟩

/-- The observable outcome of the whole `update` handler: responses written in
order (under HTTP semantics the first one is effective), the database, and
counters of `db.Get`, `db.Set` and `util.ValidateBody` calls. -/
structure UpdateOutcome where
  responses : List Response
  db : Database
  getCalls : Nat
  setCalls : Nat
  valCalls : Nat

/-- Lifts a branch result back into the handler outcome: the final
`util.Responses.Success(w)` (line 746) runs only when the branch fell through
to the end of the `switch`; the `valCalls` counter adds the `type` field
validation (line 67). -/
def outcomeOf {α : Type} (br : BranchResult α)
    (put : (String → Option α) → Database) : UpdateOutcome :=
  ⟨(if br.returned then br.responses else br.responses ++ [Response.success]),
   put br.store, 1, br.setCalls, br.valCalls + 1⟩

/-- The schema for the initial `type` field validation (line 67). -/
def typeSchema : List (String × FieldSpec) := [("type", fs "string" true)]

/-- The `default` branch message of the `switch` (line 742), verbatim from the
source including its typo. -/
def typesMsg : String :=
  "field \x27type\x27 must be on of: A, AAAA, CNAME, MX, LOC, SRV, SPF, TXT, NS, CAA, PTR, CERT, DNSKEY, DS, NAPTR, SMIMEA, SSHFP, TLSA, URI"

/-- The upper-cased tags of the 19 `case` labels of the `switch` (line 73). -/
def validTags : List String :=
  ["A", "AAAA", "CNAME", "MX", "LOC", "SRV", "SPF", "TXT", "NS", "CAA", "PTR",
   "CERT", "DNSKEY", "DS", "NAPTR", "SMIMEA", "SSHFP", "TLSA", "URI"]

/-- The `switch strings.ToUpper(body["type"].(string))` dispatch (lines
73-744), one branch per RR type plus the `default` branch. -/
def dispatch (t recordName : String) (body : Body) (db : Database) : UpdateOutcome :=
  let key := recordName ++ "."
  if t = "A" then
    outcomeOf (runBranch db.a key aFields aSchema body mergeA true)
      (fun s => { db with a := s })
  else if t = "AAAA" then
    outcomeOf (runBranch db.aaaa key aaaaFields aaaaSchema body mergeAAAA true)
      (fun s => { db with aaaa := s })
  else if t = "CNAME" then
    outcomeOf (runBranch db.cname key cnameFields cnameSchema body mergeCNAME true)
      (fun s => { db with cname := s })
  else if t = "MX" then
    outcomeOf (runBranch db.mx key mxFields mxSchema body mergeMX true)
      (fun s => { db with mx := s })
  else if t = "LOC" then
    outcomeOf (runBranch db.loc key locFields locSchema body mergeLOC true)
      (fun s => { db with loc := s })
  else if t = "SRV" then
    outcomeOf (runBranch db.srv key srvFields srvSchema body mergeSRV true)
      (fun s => { db with srv := s })
  else if t = "SPF" then
    outcomeOf (runBranch db.spf key spfFields spfSchema body mergeSPF true)
      (fun s => { db with spf := s })
  else if t = "TXT" then
    outcomeOf (runBranch db.txt key txtFields txtSchema body mergeTXT true)
      (fun s => { db with txt := s })
  else if t = "NS" then
    outcomeOf (runBranch db.ns key nsFields nsSchema body mergeNS true)
      (fun s => { db with ns := s })
  else if t = "CAA" then
    outcomeOf (runBranch db.caa key caaFields caaSchema body mergeCAA false)
      (fun s => { db with caa := s })
  else if t = "PTR" then
    outcomeOf (runBranch db.ptr key ptrFields ptrSchema body mergePTR false)
      (fun s => { db with ptr := s })
  else if t = "CERT" then
    outcomeOf (runBranch db.cert key certFields certSchema body mergeCERT false)
      (fun s => { db with cert := s })
  else if t = "DNSKEY" then
    outcomeOf (runBranch db.dnskey key dnskeyFields dnskeySchema body mergeDNSKEY false)
      (fun s => { db with dnskey := s })
  else if t = "DS" then
    outcomeOf (runBranch db.ds key dsFields dsSchema body mergeDS false)
      (fun s => { db with ds := s })
  else if t = "NAPTR" then
    outcomeOf (runBranch db.naptr key naptrFields naptrSchema body mergeNAPTR false)
      (fun s => { db with naptr := s })
  else if t = "SMIMEA" then
    outcomeOf (runBranch db.smimea key smimeaFields smimeaSchema body mergeSMIMEA false)
      (fun s => { db with smimea := s })
  else if t = "SSHFP" then
    outcomeOf (runBranch db.sshfp key sshfpFields sshfpSchema body mergeSSHFP false)
      (fun s => { db with sshfp := s })
  else if t = "TLSA" then
    outcomeOf (runBranch db.tlsa key tlsaFields tlsaSchema body mergeTLSA false)
      (fun s => { db with tlsa := s })
  else if t = "URI" then
    outcomeOf (runBranch db.uri key uriFields uriSchema body mergeURI false)
      (fun s => { db with uri := s })
  else
    ⟨[Response.error 400 typesMsg], db, 0, 0, 1⟩

/-- Modelled from the spec: the error of `db.EvaluateRole` when the role is
absent from the store. -/
def roleMissingMsg : String := "role does not exist"

/-- The record update pipeline of `update` (update.go), starting at the
normalization of the record name (line 51): authorize through
`db.EvaluateRole`, validate the `type` field, then dispatch on the RR type. -/
def updateRecordsNorm (userRole recordName : String) (body : Body)
    (db : Database) : UpdateOutcome :=
  match EvaluateRole userRole recordName db with
  | none =>
    ⟨[Response.error 500 ("failed to evaluate the role: " ++ roleMissingMsg)], db, 0, 0, 0⟩
  | some false =>
    ⟨[Response.error 403
        ("role \x27" ++ userRole ++ "\x27 is not allowed to create record")], db, 0, 0, 0⟩
  | some true =>
    let tv := ValidateBody body ["type"] typeSchema
    if tv.1 ≠ "" then ⟨[Response.error 400 tv.1], db, 0, 0, 1⟩
    else dispatch (toUpperStr (getStr body "type")) recordName body db

/-- The `update` handler of records/update.go from the record-name
normalization on (line 51): `recordName := strings.ToLower(...)` runs once and
the normalized name feeds authorization, every `db.Get` (as `recordName + "."`)
and every `db.Set`. -/
def updateRecords (userRole pathSuffix : String) (body : Body)
    (db : Database) : UpdateOutcome :=
  updateRecordsNorm userRole (toLowerStr pathSuffix) body db

/-- A stored user (`db.User`): the fields the handlers read or write. -/
structure User where
  Name : String
  Username : String
  Role : String
  Password : String
  Tokens : List String
deriving DecidableEq, Repr

/-- A response of the user handlers: `util.Responses.Error`,
`util.Responses.Success`, a single-user object, or the list-all array.  The
payload is the ordered list of key/value pairs put into the `userData` map
(`users/read.go` lines 55-59 and 82-86). -/
inductive UserResponse where
  | success : UserResponse
  | error : Nat → String → UserResponse
  | data : List (String × JValue) → UserResponse
  | dataList : List (List (String × JValue)) → UserResponse

/-- The response payload built for one user (`users/read.go` lines 55-59 and
82-86): exactly the name, username, role and logins fields; the password hash
is never copied over. -/
def userData (u : User) : List (String × JValue) :=
  [("name", JValue.str u.Name), ("username", JValue.str u.Username),
   ("role", JValue.str u.Role), ("logins", JValue.arr (u.Tokens.map JValue.str))]

/-- Modelled from the spec: `db.UserFromDatabase(username, database)` is not in
src; user-account storage is an external collaborator (§1), modelled as lookup
by username in the users bucket, with an error when the user is absent. -/
def UserFromDatabase (username : String) (bucket : List User) : Option User :=
  bucket.find? (fun u => u.Username == username)

/-- Modelled from the spec: the error of `db.UserFromDatabase` for an absent
user. -/
def userMissingMsg : String := "user does not exist"

/-- The `read` handler of users/read.go from the requester resolution on (line
36): an admin may address another user through the `user` query parameter;
`user=*` with the admin role lists every user; otherwise one user is returned;
in every case the password hash is stripped (lines 54-59, 81-86). -/
def readUsers (requester : User) (queryUser : String) (bucket : List User) :
    UserResponse :=
  let username := if requester.Role = "admin" ∧ queryUser ≠ "" then queryUser
                  else requester.Username
  if username = "*" ∧ requester.Role = "admin" then
    UserResponse.dataList (bucket.map userData)
  else
    match UserFromDatabase username bucket with
    | none => UserResponse.error 400 userMissingMsg
    | some u => UserResponse.data (userData u)

/-- Modelled from the spec: `u.Encode(database)` is not in src; user-account
storage is an external collaborator (§1), modelled as replacing the bucket
entry whose username matches. -/
def encodeUser (u : User) (bucket : List User) : List User :=
  bucket.map (fun w => if w.Username == u.Username then u else w)

/-- The body schema of the users `update` handler (part_000 lines 55-59). -/
def userUpdateFields : List String := ["name", "password", "role"]

/-- The body schema of the users `update` handler (part_000 lines 55-59). -/
def userUpdateSchema : List (String × FieldSpec) :=
  [("name", fs "string" false), ("password", fs "string" false),
   ("role", fs "string" false)]

/-- The users `update` handler (part_000) from the requester resolution on
(line 43): resolve the target username, validate the body, load the user,
apply the guarded assignments — the `role` assignment additionally requires
the requester to have the admin role (line 84) — and write the user back.
`passlib.Hash` is an external hash function, passed in as `hashFn`. -/
def updateUser (tokenUser : User) (queryUser : String) (body : Body)
    (hashFn : String → String) (bucket : List User) :
    UserResponse × List User :=
  let username := if tokenUser.Role = "admin" ∧ queryUser ≠ "" then queryUser
                  else tokenUser.Username
  let ev := ValidateBody body userUpdateFields userUpdateSchema
  if ev.1 ≠ "" then (UserResponse.error 400 ev.1, bucket)
  else
    match UserFromDatabase username bucket with
    | none => (UserResponse.error 400 userMissingMsg, bucket)
    | some u =>
      let u := if ev.2 "name" then { u with Name := getStr body "name" } else u
      let u := if ev.2 "password" then { u with Password := hashFn (getStr body "password") } else u
      let u := if ev.2 "role" ∧ tokenUser.Role = "admin" then { u with Role := getStr body "role" } else u
      (UserResponse.success, encodeUser u bucket)

/-- Whether a record of the RR type selected by the upper-cased tag is stored
at the key: the `util.RecordDoesNotExist` check of each branch. -/
def recordExists (db : Database) (t key : String) : Bool :=
  if t = "A" then (db.a key).isSome
  else if t = "AAAA" then (db.aaaa key).isSome
  else if t = "CNAME" then (db.cname key).isSome
  else if t = "MX" then (db.mx key).isSome
  else if t = "LOC" then (db.loc key).isSome
  else if t = "SRV" then (db.srv key).isSome
  else if t = "SPF" then (db.spf key).isSome
  else if t = "TXT" then (db.txt key).isSome
  else if t = "NS" then (db.ns key).isSome
  else if t = "CAA" then (db.caa key).isSome
  else if t = "PTR" then (db.ptr key).isSome
  else if t = "CERT" then (db.cert key).isSome
  else if t = "DNSKEY" then (db.dnskey key).isSome
  else if t = "DS" then (db.ds key).isSome
  else if t = "NAPTR" then (db.naptr key).isSome
  else if t = "SMIMEA" then (db.smimea key).isSome
  else if t = "SSHFP" then (db.sshfp key).isSome
  else if t = "TLSA" then (db.tlsa key).isSome
  else if t = "URI" then (db.uri key).isSome
  else false

/-- A database with no stored records and no roles. -/
def emptyDb : Database :=
  ⟨fun _ => none, fun _ => none, fun _ => none, fun _ => none, fun _ => none,
   fun _ => none, fun _ => none, fun _ => none, fun _ => none, fun _ => none,
   fun _ => none, fun _ => none, fun _ => none, fun _ => none, fun _ => none,
   fun _ => none, fun _ => none, fun _ => none, fun _ => none, fun _ => none⟩

/-- A role whose allow pattern matches every name. -/
def adminRole : Role := ⟨"admin", "all access", "*", ""⟩

/-- A sample database: the `admin` role, and an A record and a CAA record
stored at `example.com.`. -/
def sampleDb : Database :=
  { emptyDb with
    roles := fun n =>
      if n = "admin" then some adminRole
      else if n = "viewer" then some ⟨"viewer", "read only", "", ""⟩ else none,
    caa := fun k => if k = "example.com." then some ⟨"issue", "ca1"⟩ else none,
    a := fun k => if k = "example.com." then some ⟨"10.0.0.1"⟩ else none }

/-- A request body given as a key/value list. -/
def bodyOf (l : List (String × JValue)) : Body := fun f => l.lookup f

/-- The sample database extended with a LOC record at `example.com.`. -/
def locDb : Database :=
  { sampleDb with
    loc := fun k =>
      if k = "example.com." then some (LOCRecord.mk 0 0 0 0 0 10 20 30 "N" 40 50 6 "E")
      else none }

/-- A CAA update body whose `tag` field fails validation (a number instead of
a string). -/
def caaBad : Body := bodyOf [("type", JValue.str "CAA"), ("tag", JValue.num 5)]

/-- A valid CAA update body supplying only the `content` field. -/
def caaContent : Body :=
  bodyOf [("type", JValue.str "CAA"), ("content", JValue.str "letsencrypt.org")]

/-- The valid A update body of the specification example. -/
def aGood : Body := bodyOf [("type", JValue.str "A"), ("host", JValue.str "10.0.0.5")]

/-- A full LOC update body, parameterized by the `lat-degrees` value. -/
def locBody (d : Int) : Body := bodyOf
  [("type", JValue.str "LOC"), ("version", JValue.num 0), ("size", JValue.num 1),
   ("horizontal-precision", JValue.num 2), ("vertical-precision", JValue.num 3),
   ("altitude", JValue.num 4), ("lat-degrees", JValue.num d),
   ("lat-minutes", JValue.num 5), ("lat-seconds", JValue.num 6),
   ("lat-direction", JValue.str "N"), ("long-degrees", JValue.num 7),
   ("long-minutes", JValue.num 8), ("long-seconds", JValue.num 9),
   ("long-direction", JValue.str "W")]

theorem ite_absorb {α : Type} (c : Prop) [Decidable c] (a x : α) :
    (if c then a else if c then a else x) = if c then a else x := by
  by_cases h : c <;> simp [h]

theorem validateBody_snd_of_err {b : Body} {f : List String}
    {s : List (String × FieldSpec)} (h : (ValidateBody b f s).1 ≠ "") :
    (ValidateBody b f s).2 = fun _ => false := by
  unfold ValidateBody at *
  cases hfe : firstError f s b <;> simp [hfe] at h ⊢

/-- C3: policy evaluation checks the deny pattern first and returns false
unconditionally when it matches, even if the allow pattern also matches;
otherwise it returns true exactly when the allow pattern matches; a role with
an empty or non-matching allow pattern denies every candidate name. -/
theorem evaluateRole_deny_first_fail_closed (role : Role) (name : String) :
    (matchPattern role.Deny name = true → evaluateRole role name = false)
    ∧ (evaluateRole role name = true ↔
        (matchPattern role.Deny name = false ∧ matchPattern role.Allow name = true))
    ∧ (role.Allow = "" → evaluateRole role name = false) := by
  unfold evaluateRole
  refine ⟨fun h => by simp [h], ?_, fun h => ?_⟩
  · by_cases h : matchPattern role.Deny name = true
    · simp [h]
    · simp only [Bool.not_eq_true] at h
      simp [h]
  · by_cases hd : matchPattern role.Deny name = true <;>
      simp [hd, matchPattern, h]

/-- Witness for C3: the role with allow `*.example.com` and deny
`secure.example.com` denies `secure.example.com` and allows
`www.example.com`. -/
theorem evaluateRole_deny_first_fail_closed_witness :
    evaluateRole ⟨"secops", "", "*.example.com", "secure.example.com"⟩
      "secure.example.com" = false
    ∧ evaluateRole ⟨"secops", "", "*.example.com", "secure.example.com"⟩
      "www.example.com" = true := by
  constructor
  · exact (evaluateRole_deny_first_fail_closed _ _).1 (by decide)
  · exact (evaluateRole_deny_first_fail_closed _ _).2.1.mpr ⟨by decide, by decide⟩

/-- C1: refuted on the code — in the CAA branch (and the PTR through URI
branches) a validation failure writes the `BadRequest` response but the
missing `return` lets control fall through to the `db.Set` call: with an
existing CAA record at `example.com` and a body whose `tag` field fails
validation, the validator reports an error, yet one `db.Set` call happens
(rewriting the stored record) and a second, success response is written. -/
theorem caa_branch_writes_despite_validation_failure :
    (ValidateBody caaBad caaFields caaSchema).1 ≠ ""
    ∧ (updateRecords "admin" "example.com" caaBad sampleDb).responses
        = [Response.error 400 "field \x27tag\x27 must be of type string",
           Response.success]
    ∧ (updateRecords "admin" "example.com" caaBad sampleDb).setCalls = 1
    ∧ (updateRecords "admin" "example.com" caaBad sampleDb).db.caa "example.com."
        = some ⟨"issue", "ca1"⟩ := by
  refine ⟨by decide, rfl, rfl, rfl⟩

/-- C2: refuted on the code — the CAA branch assigns the provided `content`
value to the `Tag` field (update.go line 396), so an update supplying only
`content` changes `Tag` and leaves `Content` unchanged, while the claim says
`Content` is updated and `Tag` kept: starting from the stored record
`{Tag = issue, Content = ca1}` and supplying only `content =
letsencrypt.org`, the stored record becomes `{Tag = letsencrypt.org,
Content = ca1}`, not the claimed `{Tag = issue, Content = letsencrypt.org}`. -/
theorem caa_content_updates_tag_not_content :
    (updateRecords "admin" "example.com" caaContent sampleDb).responses
        = [Response.success]
    ∧ (updateRecords "admin" "example.com" caaContent sampleDb).db.caa "example.com."
        = some ⟨"letsencrypt.org", "ca1"⟩
    ∧ (updateRecords "admin" "example.com" caaContent sampleDb).db.caa "example.com."
        ≠ some ⟨"issue", "letsencrypt.org"⟩ := by
  refine ⟨rfl, rfl, by decide⟩

/-- C5 counterexample: the claim counts 18 accepted tags, but the `switch`
of update.go has 19 case labels (the parenthetical list of the claim itself
enumerates 19 names). -/
theorem accepted_tags_not_18 : validTags.length = 19 ∧ validTags.length ≠ 18 := by
  decide

set_option maxRecDepth 4096 in
/-- C5 (amended to 19 tags): the RR type tag is upper-cased and matched
against the 19 accepted tags; any other tag reaches the `default` branch,
which answers `BadRequest` with the message enumerating every valid tag and
leaves the store untouched, with no `db.Set` call. -/
theorem unknown_type_rejected (role path : String) (body : Body) (db : Database)
    (s : String)
    (hauth : EvaluateRole role (toLowerStr path) db = some true)
    (hbody : body "type" = some (JValue.str s))
    (hno : toUpperStr s ∉ validTags) :
    updateRecords role path body db
      = ⟨[Response.error 400 typesMsg], db, 0, 0, 1⟩
    ∧ ∀ t ∈ validTags, t.data <:+: typesMsg.data := by
  refine ⟨?_, by decide⟩
  have htv : ValidateBody body ["type"] typeSchema
      = ("", fun f => ["type"].contains f && (body f).isSome) := by
    simp [ValidateBody, firstError, typeSchema, hbody, checkValue, typeOk,
      boundsOk, oneOfOk, fs, List.lookup]
  have hg : getStr body "type" = s := by simp [getStr, hbody]
  simp only [validTags, List.mem_cons, List.not_mem_nil, or_false, not_or] at hno
  obtain ⟨n1, n2, n3, n4, n5, n6, n7, n8, n9, n10, n11, n12, n13, n14, n15,
    n16, n17, n18, n19⟩ := hno
  simp [updateRecords, updateRecordsNorm, hauth, htv, hg, dispatch,
    n1, n2, n3, n4, n5, n6, n7, n8, n9, n10, n11, n12, n13, n14, n15, n16,
    n17, n18, n19]

/-- Witness for C5 (amended): with the admin role of the sample database, the
tag `BOGUS` is rejected with the enumerating message and the database is
unchanged. -/
theorem unknown_type_rejected_witness :
    updateRecords "admin" "example.com" (bodyOf [("type", JValue.str "bogus")])
        sampleDb
      = ⟨[Response.error 400 typesMsg], sampleDb, 0, 0, 1⟩ := by
  exact (unknown_type_rejected "admin" "example.com" _ sampleDb "bogus"
    (by decide) rfl (by decide)).1

/-- C4: for every RR type, an update addressed at a (name, type) pair with no
stored record of that type answers `BadRequest` with "specified record does
not exist" and performs no `db.Set`; and an update of an existing A record
with body `type = A, host = 10.0.0.5` succeeds and stores the address
`10.0.0.5`. -/
theorem update_requires_existence (role path : String) (body : Body)
    (db : Database) (s : String)
    (hauth : EvaluateRole role (toLowerStr path) db = some true)
    (hbody : body "type" = some (JValue.str s))
    (htag : toUpperStr s ∈ validTags)
    (hno : recordExists db (toUpperStr s) (toLowerStr path ++ ".") = false) :
    updateRecords role path body db
      = ⟨[Response.error 400 "specified record does not exist"], db, 1, 0, 1⟩
    ∧ ∀ (r : ARecord) (db2 : Database),
        EvaluateRole role (toLowerStr path) db2 = some true →
        db2.a (toLowerStr path ++ ".") = some r →
        (updateRecords role path aGood db2).responses = [Response.success]
        ∧ (updateRecords role path aGood db2).db.a (toLowerStr path ++ ".")
            = some ⟨"10.0.0.5"⟩ := by
  constructor
  · have htv : ValidateBody body ["type"] typeSchema
        = ("", fun f => ["type"].contains f && (body f).isSome) := by
      simp [ValidateBody, firstError, typeSchema, hbody, checkValue, typeOk,
        boundsOk, oneOfOk, fs, List.lookup]
    have hg : getStr body "type" = s := by simp [getStr, hbody]
    simp only [validTags, List.mem_cons, List.not_mem_nil, or_false] at htag
    simp only [updateRecords] at *
    rcases htag with h|h|h|h|h|h|h|h|h|h|h|h|h|h|h|h|h|h|h <;>
      (simp [recordExists, h] at hno;
       simp [updateRecordsNorm, hauth, htv, hg, h, dispatch, runBranch, outcomeOf,
         hno])
  · intro r db2 hauth2 hrec
    constructor <;>
      simp [updateRecords, updateRecordsNorm, hauth2, aGood, bodyOf, dispatch,
        runBranch, outcomeOf, hrec, ValidateBody, firstError, typeSchema,
        aFields, aSchema, getStr, toUpperStr, upperChar, checkValue, typeOk,
        boundsOk, oneOfOk, fs, List.lookup, mergeA, isIPv4, splitDots, isOctet,
        digitsToNat]

/-- Witness for C4: on the sample database, a CNAME update at `example.com`
(no CNAME record stored there) is rejected with "specified record does not
exist" and changes nothing, while the A update with host `10.0.0.5` succeeds
and stores that address. -/
theorem update_requires_existence_witness :
    updateRecords "admin" "example.com"
        (bodyOf [("type", JValue.str "CNAME"), ("target", JValue.str "x.y")])
        sampleDb
      = ⟨[Response.error 400 "specified record does not exist"], sampleDb, 1, 0, 1⟩
    ∧ (updateRecords "admin" "example.com" aGood sampleDb).responses
        = [Response.success]
    ∧ (updateRecords "admin" "example.com" aGood sampleDb).db.a "example.com."
        = some ⟨"10.0.0.5"⟩ := by
  have h := update_requires_existence "admin" "example.com"
    (bodyOf [("type", JValue.str "CNAME"), ("target", JValue.str "x.y")])
    sampleDb "CNAME" (by decide) rfl (by decide) (by decide)
  exact ⟨h.1, (h.2 ⟨"10.0.0.1"⟩ sampleDb (by decide) rfl).1,
    (h.2 ⟨"10.0.0.1"⟩ sampleDb (by decide) rfl).2⟩

/-- C7: every numeric field with declared min/max bounds fails validation when
out of range (never clamped); concretely, a full LOC body with `lat-degrees`
above 90 is rejected with `BadRequest` and nothing is written, while
`lat-degrees` between 0 and 90 is accepted and the exact value is stored. -/
theorem loc_bounds_enforced (role path : String) (db : Database)
    (r : LOCRecord) (d : Int)
    (hauth : EvaluateRole role (toLowerStr path) db = some true)
    (hrec : db.loc (toLowerStr path ++ ".") = some r) :
    (∀ (sp : FieldSpec) (lo hi n : Int), sp.minB = some lo → sp.maxB = some hi →
      (n < lo ∨ hi < n) → checkValue sp (JValue.num n) = false)
    ∧ (90 < d →
        updateRecords role path (locBody d) db
          = ⟨[Response.error 400
                (typeMsg "lat-degrees" ⟨"uint8", true, some 0, some 90, none⟩)],
             db, 1, 0, 2⟩)
    ∧ (0 ≤ d → d ≤ 90 →
        (updateRecords role path (locBody d) db).responses = [Response.success]
        ∧ (updateRecords role path (locBody d) db).db.loc (toLowerStr path ++ ".")
            = some ⟨0, 1, 2, 3, 4, d.toNat, 5, 6, "N", 7, 8, 9, "W"⟩) := by
  refine ⟨?_, ?_, ?_⟩
  · intro sp lo hi n hmin hmax hout
    simp only [checkValue, boundsOk, hmin, hmax]
    rcases hout with h | h
    · simp [show ¬(lo ≤ n) from by omega]
    · simp [show ¬(n ≤ hi) from by omega]
  · intro hd
    simp [updateRecords, updateRecordsNorm, hauth, dispatch, runBranch,
      outcomeOf, hrec, locBody, bodyOf, ValidateBody, firstError, locFields,
      locSchema, typeSchema, checkValue, typeOk, boundsOk, oneOfOk, fs, getStr,
      toUpperStr, upperChar, List.lookup, typeMsg, reqMsg,
      show ¬(d ≤ 90) from by omega]
  · intro hd0 hd90
    constructor <;>
      simp [updateRecords, updateRecordsNorm, hauth, dispatch, runBranch,
        outcomeOf, hrec, locBody, bodyOf, ValidateBody, firstError, locFields,
        locSchema, typeSchema, checkValue, typeOk, boundsOk, oneOfOk, fs,
        getStr, getNat, toUpperStr, upperChar, List.lookup, mergeLOC,
        hd0, hd90, show d < 256 from by omega]

/-- Witness for C7: on a database holding a LOC record, `lat-degrees = 91` is
rejected and `lat-degrees = 90` is accepted with the value stored exactly. -/
theorem loc_bounds_enforced_witness :
    (updateRecords "admin" "example.com" (locBody 91) locDb
      = ⟨[Response.error 400
            (typeMsg "lat-degrees" ⟨"uint8", true, some 0, some 90, none⟩)],
         locDb, 1, 0, 2⟩)
    ∧ (updateRecords "admin" "example.com" (locBody 90) locDb).responses
        = [Response.success]
    ∧ (updateRecords "admin" "example.com" (locBody 90) locDb).db.loc
        "example.com."
        = some ⟨0, 1, 2, 3, 4, 90, 5, 6, "N", 7, 8, 9, "W"⟩ := by
  refine ⟨?_, ?_, ?_⟩
  · exact (loc_bounds_enforced "admin" "example.com" locDb
      (LOCRecord.mk 0 0 0 0 0 10 20 30 "N" 40 50 6 "E") 91 (by decide) rfl).2.1
      (by decide)
  · exact ((loc_bounds_enforced "admin" "example.com" locDb
      (LOCRecord.mk 0 0 0 0 0 10 20 30 "N" 40 50 6 "E") 90 (by decide) rfl).2.2
      (by decide) (by decide)).1
  · exact ((loc_bounds_enforced "admin" "example.com" locDb
      (LOCRecord.mk 0 0 0 0 0 10 20 30 "N" 40 50 6 "E") 90 (by decide) rfl).2.2
      (by decide) (by decide)).2

theorem lowerChar_fixed (c : Char) : lowerChar (lowerChar c) = lowerChar c := by
  by_cases h : 65 ≤ c.toNat ∧ c.toNat ≤ 90
  · obtain ⟨h1, h2⟩ := h
    have hlc : lowerChar c = Char.ofNat (c.toNat + 32) := by
      simp [lowerChar, h1, h2]
    have ht : (Char.ofNat (c.toNat + 32)).toNat = c.toNat + 32 := by
      interval_cases hh : c.toNat <;> decide
    rw [hlc]
    simp [lowerChar, ht, show ¬(c.toNat + 32 ≤ 90) from by omega]
  · have hlc : lowerChar c = c := by simp [lowerChar, h]
    rw [hlc, hlc]

theorem toLowerStr_idem (s : String) :
    toLowerStr (toLowerStr s) = toLowerStr s := by
  unfold toLowerStr
  simp only [List.map_map]
  rw [show lowerChar ∘ lowerChar = lowerChar from funext lowerChar_fixed]

/-- C6: record-name normalization (lower-casing) happens exactly once, before
authorization — the handler factors as the normalization followed by the
normalized pipeline, and is invariant under pre-normalizing the path — and a
policy denial ends the request with the Forbidden response while the store is
untouched and no load, no `db.Set` and no field validation ever runs. -/
theorem normalization_before_authorization (role path : String) (body : Body)
    (db : Database) :
    updateRecords role path body db = updateRecordsNorm role (toLowerStr path) body db
    ∧ updateRecords role path body db = updateRecords role (toLowerStr path) body db
    ∧ (EvaluateRole role (toLowerStr path) db = some false →
        updateRecords role path body db
          = ⟨[Response.error 403
                ("role \x27" ++ role ++ "\x27 is not allowed to create record")],
             db, 0, 0, 0⟩) := by
  refine ⟨rfl, ?_, fun h => ?_⟩
  · unfold updateRecords
    rw [toLowerStr_idem]
  · simp [updateRecords, updateRecordsNorm, h]

/-- Witness for C6: the `viewer` role (empty allow pattern) is denied: the
request stops with Forbidden, the database is unchanged, and the load, set and
validation counters are all zero. -/
theorem normalization_before_authorization_witness :
    updateRecords "viewer" "EXAMPLE.com" aGood sampleDb
      = ⟨[Response.error 403 "role \x27viewer\x27 is not allowed to create record"],
         sampleDb, 0, 0, 0⟩ :=
  (normalization_before_authorization "viewer" "EXAMPLE.com" aGood sampleDb).2.2
    (by decide)

theorem mergeA_idem (r : ARecord) (v : String → Bool) (b : Body) :
    mergeA (mergeA r v b) v b = mergeA r v b := by simp [mergeA, ite_absorb]

theorem mergeAAAA_idem (r : AAAARecord) (v : String → Bool) (b : Body) :
    mergeAAAA (mergeAAAA r v b) v b = mergeAAAA r v b := by simp [mergeAAAA, ite_absorb]

theorem mergeCNAME_idem (r : CNAMERecord) (v : String → Bool) (b : Body) :
    mergeCNAME (mergeCNAME r v b) v b = mergeCNAME r v b := by simp [mergeCNAME, ite_absorb]

theorem mergeMX_idem (r : MXRecord) (v : String → Bool) (b : Body) :
    mergeMX (mergeMX r v b) v b = mergeMX r v b := by simp [mergeMX, ite_absorb]

theorem mergeLOC_idem (r : LOCRecord) (v : String → Bool) (b : Body) :
    mergeLOC (mergeLOC r v b) v b = mergeLOC r v b := by simp [mergeLOC, ite_absorb]

theorem mergeSRV_idem (r : SRVRecord) (v : String → Bool) (b : Body) :
    mergeSRV (mergeSRV r v b) v b = mergeSRV r v b := by simp [mergeSRV, ite_absorb]

theorem mergeSPF_idem (r : SPFRecord) (v : String → Bool) (b : Body) :
    mergeSPF (mergeSPF r v b) v b = mergeSPF r v b := by simp [mergeSPF, ite_absorb]

theorem mergeTXT_idem (r : TXTRecord) (v : String → Bool) (b : Body) :
    mergeTXT (mergeTXT r v b) v b = mergeTXT r v b := by simp [mergeTXT, ite_absorb]

theorem mergeNS_idem (r : NSRecord) (v : String → Bool) (b : Body) :
    mergeNS (mergeNS r v b) v b = mergeNS r v b := by simp [mergeNS, ite_absorb]

theorem mergeCAA_idem (r : CAARecord) (v : String → Bool) (b : Body) :
    mergeCAA (mergeCAA r v b) v b = mergeCAA r v b := by
  by_cases h1 : v "content" = true <;> by_cases h2 : v "tag" = true <;>
    simp [mergeCAA, h1, h2]

theorem mergePTR_idem (r : PTRRecord) (v : String → Bool) (b : Body) :
    mergePTR (mergePTR r v b) v b = mergePTR r v b := by simp [mergePTR, ite_absorb]

theorem mergeCERT_idem (r : CERTRecord) (v : String → Bool) (b : Body) :
    mergeCERT (mergeCERT r v b) v b = mergeCERT r v b := by simp [mergeCERT, ite_absorb]

theorem mergeDNSKEY_idem (r : DNSKEYRecord) (v : String → Bool) (b : Body) :
    mergeDNSKEY (mergeDNSKEY r v b) v b = mergeDNSKEY r v b := by
  simp [mergeDNSKEY, ite_absorb]

theorem mergeDS_idem (r : DSRecord) (v : String → Bool) (b : Body) :
    mergeDS (mergeDS r v b) v b = mergeDS r v b := by simp [mergeDS, ite_absorb]

theorem mergeNAPTR_idem (r : NAPTRRecord) (v : String → Bool) (b : Body) :
    mergeNAPTR (mergeNAPTR r v b) v b = mergeNAPTR r v b := by
  simp [mergeNAPTR, ite_absorb]

theorem mergeSMIMEA_idem (r : SMIMEARecord) (v : String → Bool) (b : Body) :
    mergeSMIMEA (mergeSMIMEA r v b) v b = mergeSMIMEA r v b := by
  simp [mergeSMIMEA, ite_absorb]

theorem mergeSSHFP_idem (r : SSHFPRecord) (v : String → Bool) (b : Body) :
    mergeSSHFP (mergeSSHFP r v b) v b = mergeSSHFP r v b := by
  simp [mergeSSHFP, ite_absorb]

theorem mergeTLSA_idem (r : TLSARecord) (v : String → Bool) (b : Body) :
    mergeTLSA (mergeTLSA r v b) v b = mergeTLSA r v b := by simp [mergeTLSA, ite_absorb]

theorem mergeURI_idem (r : URIRecord) (v : String → Bool) (b : Body) :
    mergeURI (mergeURI r v b) v b = mergeURI r v b := by simp [mergeURI, ite_absorb]

theorem update_self {α : Type} (load : String → Option α) (key : String) (r : α)
    (h : load key = some r) :
    (fun k => if k = key then some r else load k) = load :=
  funext fun k => by by_cases hk : k = key <;> simp [hk, h]

/-- Running the same branch twice leaves the per-type store where one run left
it, provided the merge is idempotent and ignores an all-false validity map. -/
theorem runBranch_store_idem {α : Type} (load : String → Option α) (key : String)
    (fields : List String) (schema : List (String × FieldSpec)) (body : Body)
    (mergeFn : α → (String → Bool) → Body → α) (ret : Bool)
    (hidem : ∀ r v, mergeFn (mergeFn r v body) v body = mergeFn r v body)
    (hff : ∀ r, mergeFn r (fun _ => false) body = r) :
    (runBranch (runBranch load key fields schema body mergeFn ret).store key
        fields schema body mergeFn ret).store
      = (runBranch load key fields schema body mergeFn ret).store := by
  cases hl : load key with
  | none => simp [runBranch, hl]
  | some r =>
    by_cases he : (ValidateBody body fields schema).1 ≠ ""
    · cases ret with
      | true => simp [runBranch, hl, he]
      | false =>
        have hv := validateBody_snd_of_err he
        have hS1 : (runBranch load key fields schema body mergeFn false).store = load := by
          simp only [runBranch, hl, he]
          simp [hv, hff, update_self load key r hl]
        rw [hS1]
        exact hS1
    · push_neg at he
      have hS1 : (runBranch load key fields schema body mergeFn ret).store
          = fun k => if k = key then
              some (mergeFn r (ValidateBody body fields schema).2 body)
            else load k := by
        simp [runBranch, hl, he]
      rw [hS1]
      have hk2 : (fun k => if k = key then
          some (mergeFn r (ValidateBody body fields schema).2 body) else load k) key
          = some (mergeFn r (ValidateBody body fields schema).2 body) := by simp
      simp only [runBranch, hk2, he, ne_eq, not_true_eq_false, false_and, if_false]
      funext k
      by_cases hkk : k = key <;> simp [hkk, hidem]

set_option maxHeartbeats 3200000 in
/-- C8: applying the same update request twice in sequence leaves the store in
the same state as applying it once, for every role, path, request body and
starting database — so in particular for every RR type and valid body. -/
theorem update_idempotent (role path : String) (body : Body) (db : Database) :
    (updateRecords role path body (updateRecords role path body db).db).db
      = (updateRecords role path body db).db := by
  unfold updateRecords updateRecordsNorm
  cases hrole : db.roles role with
  | none => simp [EvaluateRole, hrole]
  | some rl =>
    cases hev : evaluateRole rl (toLowerStr path) with
    | false => simp [EvaluateRole, hrole, hev]
    | true =>
      by_cases htv : (ValidateBody body ["type"] typeSchema).1 ≠ ""
      · simp [EvaluateRole, hrole, hev, htv]
      · push_neg at htv
        simp only [EvaluateRole, hrole, hev, htv, ne_eq, not_true_eq_false,
          not_false_eq_true, if_false, if_true]
        by_cases h1 : toUpperStr (getStr body "type") = "A"
        · have hs := runBranch_store_idem db.a (toLowerStr path ++ ".") aFields
            aSchema body mergeA true (fun r v => mergeA_idem r v body) (fun r => rfl)
          simp [dispatch, h1, outcomeOf, hrole, hev, hs]
        by_cases h2 : toUpperStr (getStr body "type") = "AAAA"
        · have hs := runBranch_store_idem db.aaaa (toLowerStr path ++ ".") aaaaFields
            aaaaSchema body mergeAAAA true (fun r v => mergeAAAA_idem r v body) (fun r => rfl)
          simp [dispatch, h1, h2, outcomeOf, hrole, hev, hs]
        by_cases h3 : toUpperStr (getStr body "type") = "CNAME"
        · have hs := runBranch_store_idem db.cname (toLowerStr path ++ ".") cnameFields
            cnameSchema body mergeCNAME true (fun r v => mergeCNAME_idem r v body) (fun r => rfl)
          simp [dispatch, h1, h2, h3, outcomeOf, hrole, hev, hs]
        by_cases h4 : toUpperStr (getStr body "type") = "MX"
        · have hs := runBranch_store_idem db.mx (toLowerStr path ++ ".") mxFields
            mxSchema body mergeMX true (fun r v => mergeMX_idem r v body) (fun r => rfl)
          simp [dispatch, h1, h2, h3, h4, outcomeOf, hrole, hev, hs]
        by_cases h5 : toUpperStr (getStr body "type") = "LOC"
        · have hs := runBranch_store_idem db.loc (toLowerStr path ++ ".") locFields
            locSchema body mergeLOC true (fun r v => mergeLOC_idem r v body) (fun r => rfl)
          simp [dispatch, h1, h2, h3, h4, h5, outcomeOf, hrole, hev, hs]
        by_cases h6 : toUpperStr (getStr body "type") = "SRV"
        · have hs := runBranch_store_idem db.srv (toLowerStr path ++ ".") srvFields
            srvSchema body mergeSRV true (fun r v => mergeSRV_idem r v body) (fun r => rfl)
          simp [dispatch, h1, h2, h3, h4, h5, h6, outcomeOf, hrole, hev, hs]
        by_cases h7 : toUpperStr (getStr body "type") = "SPF"
        · have hs := runBranch_store_idem db.spf (toLowerStr path ++ ".") spfFields
            spfSchema body mergeSPF true (fun r v => mergeSPF_idem r v body) (fun r => rfl)
          simp [dispatch, h1, h2, h3, h4, h5, h6, h7, outcomeOf, hrole, hev, hs]
        by_cases h8 : toUpperStr (getStr body "type") = "TXT"
        · have hs := runBranch_store_idem db.txt (toLowerStr path ++ ".") txtFields
            txtSchema body mergeTXT true (fun r v => mergeTXT_idem r v body) (fun r => rfl)
          simp [dispatch, h1, h2, h3, h4, h5, h6, h7, h8, outcomeOf, hrole, hev, hs]
        by_cases h9 : toUpperStr (getStr body "type") = "NS"
        · have hs := runBranch_store_idem db.ns (toLowerStr path ++ ".") nsFields
            nsSchema body mergeNS true (fun r v => mergeNS_idem r v body) (fun r => rfl)
          simp [dispatch, h1, h2, h3, h4, h5, h6, h7, h8, h9, outcomeOf, hrole, hev, hs]
        by_cases h10 : toUpperStr (getStr body "type") = "CAA"
        · have hs := runBranch_store_idem db.caa (toLowerStr path ++ ".") caaFields
            caaSchema body mergeCAA false (fun r v => mergeCAA_idem r v body) (fun r => rfl)
          simp [dispatch, h1, h2, h3, h4, h5, h6, h7, h8, h9, h10, outcomeOf, hrole, hev, hs]
        by_cases h11 : toUpperStr (getStr body "type") = "PTR"
        · have hs := runBranch_store_idem db.ptr (toLowerStr path ++ ".") ptrFields
            ptrSchema body mergePTR false (fun r v => mergePTR_idem r v body) (fun r => rfl)
          simp [dispatch, h1, h2, h3, h4, h5, h6, h7, h8, h9, h10, h11, outcomeOf, hrole, hev, hs]
        by_cases h12 : toUpperStr (getStr body "type") = "CERT"
        · have hs := runBranch_store_idem db.cert (toLowerStr path ++ ".") certFields
            certSchema body mergeCERT false (fun r v => mergeCERT_idem r v body) (fun r => rfl)
          simp [dispatch, h1, h2, h3, h4, h5, h6, h7, h8, h9, h10, h11, h12, outcomeOf, hrole, hev, hs]
        by_cases h13 : toUpperStr (getStr body "type") = "DNSKEY"
        · have hs := runBranch_store_idem db.dnskey (toLowerStr path ++ ".") dnskeyFields
            dnskeySchema body mergeDNSKEY false (fun r v => mergeDNSKEY_idem r v body) (fun r => rfl)
          simp [dispatch, h1, h2, h3, h4, h5, h6, h7, h8, h9, h10, h11, h12, h13, outcomeOf, hrole, hev, hs]
        by_cases h14 : toUpperStr (getStr body "type") = "DS"
        · have hs := runBranch_store_idem db.ds (toLowerStr path ++ ".") dsFields
            dsSchema body mergeDS false (fun r v => mergeDS_idem r v body) (fun r => rfl)
          simp [dispatch, h1, h2, h3, h4, h5, h6, h7, h8, h9, h10, h11, h12, h13, h14, outcomeOf, hrole, hev, hs]
        by_cases h15 : toUpperStr (getStr body "type") = "NAPTR"
        · have hs := runBranch_store_idem db.naptr (toLowerStr path ++ ".") naptrFields
            naptrSchema body mergeNAPTR false (fun r v => mergeNAPTR_idem r v body) (fun r => rfl)
          simp [dispatch, h1, h2, h3, h4, h5, h6, h7, h8, h9, h10, h11, h12, h13, h14, h15, outcomeOf, hrole, hev, hs]
        by_cases h16 : toUpperStr (getStr body "type") = "SMIMEA"
        · have hs := runBranch_store_idem db.smimea (toLowerStr path ++ ".") smimeaFields
            smimeaSchema body mergeSMIMEA false (fun r v => mergeSMIMEA_idem r v body) (fun r => rfl)
          simp [dispatch, h1, h2, h3, h4, h5, h6, h7, h8, h9, h10, h11, h12, h13, h14, h15, h16, outcomeOf, hrole, hev, hs]
        by_cases h17 : toUpperStr (getStr body "type") = "SSHFP"
        · have hs := runBranch_store_idem db.sshfp (toLowerStr path ++ ".") sshfpFields
            sshfpSchema body mergeSSHFP false (fun r v => mergeSSHFP_idem r v body) (fun r => rfl)
          simp [dispatch, h1, h2, h3, h4, h5, h6, h7, h8, h9, h10, h11, h12, h13, h14, h15, h16, h17, outcomeOf, hrole, hev, hs]
        by_cases h18 : toUpperStr (getStr body "type") = "TLSA"
        · have hs := runBranch_store_idem db.tlsa (toLowerStr path ++ ".") tlsaFields
            tlsaSchema body mergeTLSA false (fun r v => mergeTLSA_idem r v body) (fun r => rfl)
          simp [dispatch, h1, h2, h3, h4, h5, h6, h7, h8, h9, h10, h11, h12, h13, h14, h15, h16, h17, h18, outcomeOf, hrole, hev, hs]
        by_cases h19 : toUpperStr (getStr body "type") = "URI"
        · have hs := runBranch_store_idem db.uri (toLowerStr path ++ ".") uriFields
            uriSchema body mergeURI false (fun r v => mergeURI_idem r v body) (fun r => rfl)
          simp [dispatch, h1, h2, h3, h4, h5, h6, h7, h8, h9, h10, h11, h12, h13, h14, h15, h16, h17, h18, h19, outcomeOf, hrole, hev, hs]
        simp [dispatch, h1, h2, h3, h4, h5, h6, h7, h8, h9, h10, h11, h12, h13, h14, h15, h16, h17, h18, h19, outcomeOf, hrole, hev]

/-- A user with the password hash blanked; two users are observationally equal
for the read handler exactly when they agree after scrubbing. -/
def scrubUser (u : User) : User := { u with Password := "" }

theorem userData_scrub (u : User) : userData (scrubUser u) = userData u := rfl

theorem UserFromDatabase_scrub (username : String) (b1 b2 : List User)
    (h : b1.map scrubUser = b2.map scrubUser) :
    (UserFromDatabase username b1).map scrubUser
      = (UserFromDatabase username b2).map scrubUser := by
  induction b1 generalizing b2 with
  | nil =>
    cases b2 with
    | nil => rfl
    | cons y ys => simp at h
  | cons x xs ih =>
    cases b2 with
    | nil => simp at h
    | cons y ys =>
      simp only [List.map_cons, List.cons.injEq] at h
      obtain ⟨hxy, hrest⟩ := h
      have hu : x.Username = y.Username :=
        @congrArg _ _ (scrubUser x) (scrubUser y) User.Username hxy
      unfold UserFromDatabase at *
      simp only [List.find?]
      rw [hu]
      cases hc : y.Username == username
      · simpa using ih ys hrest
      · simp [hxy]

/-- C9: the user read operation never includes the password hash: the per-user
payload carries exactly the name, username, role and logins keys, and the full
response (single user or list-all) is unchanged when any stored password hash,
or the requester's own hash, changes. -/
theorem read_never_reveals_password (req1 req2 : User) (q : String)
    (b1 b2 : List User)
    (hreq : scrubUser req1 = scrubUser req2)
    (hb : b1.map scrubUser = b2.map scrubUser) :
    readUsers req1 q b1 = readUsers req2 q b2
    ∧ ∀ u : User,
        (userData u).map Prod.fst = ["name", "username", "role", "logins"] := by
  refine ⟨?_, fun u => rfl⟩
  have hR : req1.Role = req2.Role :=
    @congrArg _ _ (scrubUser req1) (scrubUser req2) User.Role hreq
  have hU : req1.Username = req2.Username :=
    @congrArg _ _ (scrubUser req1) (scrubUser req2) User.Username hreq
  have hmapData : ∀ l1 l2 : List User, l1.map scrubUser = l2.map scrubUser →
      l1.map userData = l2.map userData := by
    intro l1 l2 hl
    have h1 : l1.map userData = (l1.map scrubUser).map userData := by
      rw [List.map_map, show userData ∘ scrubUser = userData from funext userData_scrub]
    rw [h1, hl, List.map_map,
      show userData ∘ scrubUser = userData from funext userData_scrub]
  unfold readUsers
  rw [hR, hU]
  by_cases hall : (if req2.Role = "admin" ∧ q ≠ "" then q else req2.Username) = "*"
      ∧ req2.Role = "admin"
  · rw [if_pos hall, if_pos hall, hmapData b1 b2 hb]
  · rw [if_neg hall, if_neg hall]
    have hf := UserFromDatabase_scrub
      (if req2.Role = "admin" ∧ q ≠ "" then q else req2.Username) b1 b2 hb
    cases hc1 : UserFromDatabase
        (if req2.Role = "admin" ∧ q ≠ "" then q else req2.Username) b1 with
    | none =>
      cases hc2 : UserFromDatabase
          (if req2.Role = "admin" ∧ q ≠ "" then q else req2.Username) b2 with
      | none => rfl
      | some u2 => rw [hc1, hc2] at hf; simp at hf
    | some u1 =>
      cases hc2 : UserFromDatabase
          (if req2.Role = "admin" ∧ q ≠ "" then q else req2.Username) b2 with
      | none => rw [hc1, hc2] at hf; simp at hf
      | some u2 =>
        rw [hc1, hc2] at hf
        simp only [Option.map_some'] at hf
        have hd : userData u1 = userData u2 := by
          rw [← userData_scrub u1, ← userData_scrub u2, Option.some.inj hf]
        simp [hd]

/-- Witness for C9: two one-user stores whose single users differ only in the
stored password hash produce identical read responses. -/
theorem read_never_reveals_password_witness :
    readUsers (User.mk "Al" "alice" "admin" "hashA" ["t1"]) ""
        [User.mk "Al" "alice" "admin" "hashA" ["t1"]]
      = readUsers (User.mk "Al" "alice" "admin" "hashB" ["t1"]) ""
        [User.mk "Al" "alice" "admin" "hashB" ["t1"]] :=
  (read_never_reveals_password
    (User.mk "Al" "alice" "admin" "hashA" ["t1"])
    (User.mk "Al" "alice" "admin" "hashB" ["t1"]) ""
    [User.mk "Al" "alice" "admin" "hashA" ["t1"]]
    [User.mk "Al" "alice" "admin" "hashB" ["t1"]] rfl rfl).1

/-- A users update body supplying the name, password and role fields. -/
def userBody (nm pw rl : String) : Body :=
  bodyOf [("name", JValue.str nm), ("password", JValue.str pw),
          ("role", JValue.str rl)]

/-- C10: a `role` field supplied by a requester whose own role is not `admin`
is silently ignored: the request succeeds, the stored role is unchanged, and
the supplied name and password are still applied (the password through the
hash function). -/
theorem nonadmin_role_change_ignored (tokenUser : User) (q : String)
    (hashFn : String → String) (bucket : List User) (u : User)
    (nm pw rl : String)
    (hrole : tokenUser.Role ≠ "admin")
    (hu : UserFromDatabase tokenUser.Username bucket = some u) :
    updateUser tokenUser q (userBody nm pw rl) hashFn bucket
      = (UserResponse.success,
         encodeUser { u with Name := nm, Password := hashFn pw } bucket)
    ∧ (User.mk nm u.Username u.Role (hashFn pw) u.Tokens).Role = u.Role := by
  refine ⟨?_, rfl⟩
  simp [updateUser, hrole, hu, userBody, bodyOf, ValidateBody, firstError,
    userUpdateFields, userUpdateSchema, checkValue, typeOk, boundsOk, oneOfOk,
    fs, getStr, List.lookup]

/-- Witness for C10: the non-admin user `bob` supplies a role change to
`admin` together with a new name and password; the stored user keeps role
`user` while name and password are updated, and the request succeeds. -/
theorem nonadmin_role_change_ignored_witness :
    updateUser (User.mk "Bob" "bob" "user" "h0" []) ""
        (userBody "Bobby" "pw2" "admin") (fun s => s ++ "#h")
        [User.mk "Bob" "bob" "user" "h0" []]
      = (UserResponse.success,
         encodeUser (User.mk "Bobby" "bob" "user" "pw2#h" [])
           [User.mk "Bob" "bob" "user" "h0" []]) :=
  (nonadmin_role_change_ignored (User.mk "Bob" "bob" "user" "h0" []) ""
    (fun s => s ++ "#h") [User.mk "Bob" "bob" "user" "h0" []]
    (User.mk "Bob" "bob" "user" "h0" []) "Bobby" "pw2" "admin"
    (by decide) rfl).1

end Dns
